import Mathlib

/-!
Verification development for the LawSummary orchestration core.

Shallow embedding of the backend pipeline (wave scheduler, sub-agents,
bounded external clients, rate limiter, synthesizer, event bus, lookup
cache) translated from the Python sources under `backend/app`.
Confidence scores, which Python represents as floats used only for
comparisons and ordering, are modelled as rationals.  JSON dictionary
accesses `d.get(key, default)` whose default coincides with the missing
value are modelled by plain fields; accesses whose default matters are
modelled by `Option` fields with `Option.getD`.
-/

namespace LawSummary

/-! ## Data model (backend/app/models/schemas.py and service dataclasses) -/

/-- `LegalIssue` from `schemas.py`: one unit of fan-out for Wave 1. -/
structure LegalIssue where
  id : String
  label : String
  description : String
  relevant_facts : List String
deriving Repr, DecidableEq

/-- `LegInfoSection` dataclass from `leginfo_scraper.py`. -/
structure LegInfoSection where
  code : String
  sectionNum : String
  title : String
  full_text : String
  url : String
deriving Repr, DecidableEq

/-- `LegInfoSearchResult` dataclass from `leginfo_scraper.py`. -/
structure LegInfoSearchHit where
  code : String
  sectionNum : String
  title : String
  snippet : String
  url : String
deriving Repr, DecidableEq

/-- `CourtListenerSearchHit` dataclass from `courtlistener.py`. -/
structure CLHit where
  cluster_id : Nat
  opinion_id : Nat
  case_name : String
  court : String
  date_filed : String
  citation : String
  snippet : String
  absolute_url : String
deriving Repr, DecidableEq

/-- `StatuteResult` from `schemas.py` (confidence as a rational). -/
structure StatuteResult where
  code : String
  sectionNum : String
  title : String
  full_text : String
  url : String
  relevance_summary : String
  case_snippet : String
  confidence : ℚ
  source_issue_id : String
deriving Repr, DecidableEq

/-- `CaseLawResult` from `schemas.py` (confidence as a rational). -/
structure CaseLawResult where
  case_name : String
  citation : String
  court : String
  date_filed : String
  url : String
  snippet : String
  relevance_summary : String
  related_statutes : List String
  confidence : ℚ
  source_issue_id : String
deriving Repr, DecidableEq

/-! ## Association lists modelling Python `dict` (insertion-ordered) -/

/-- `d.get(k)` / `k in d` on an insertion-ordered dict. -/
def assocFind {α : Type} (l : List (String × α)) (k : String) : Option α :=
  match l.find? (fun p => p.1 == k) with
  | some p => some p.2
  | none => none

/-- `d[k] = v` on an insertion-ordered dict: overwrite in place if the key
exists (position retained, as in CPython), else append. -/
def assocSet {α : Type} (l : List (String × α)) (k : String) (v : α) :
    List (String × α) :=
  if (l.find? (fun p => p.1 == k)).isSome then
    l.map (fun p => if p.1 == k then (k, v) else p)
  else
    l ++ [(k, v)]

/-! ## Token bucket (`courtlistener.py`, class `TokenBucket`)

`acquire` is translated literally.  For a single caller issuing calls
back-to-back, wall-clock time advances only while the limiter sleeps, so
the driver threads the current time and adds each sleep duration to it.
-/

/-- Mutable state of `TokenBucket`: current token count and the
`last_refill` monotonic timestamp. -/
structure TBState where
  tokens : ℚ
  lastRefill : ℚ
deriving Repr, DecidableEq

/-- `TokenBucket.acquire`, translated from `courtlistener.py` lines 56-68:
refill lazily from elapsed time (clamped to capacity), set `last_refill`
to `now`, then either consume one token, or sleep `(1 - tokens) / rate`
and set the count to zero.  Returns the new state and the sleep duration
performed. -/
def tbAcquire (rate cap : ℚ) (s : TBState) (now : ℚ) : TBState × ℚ :=
  let tokens := min cap (s.tokens + (now - s.lastRefill) * rate)
  if tokens < 1 then
    (⟨0, now⟩, (1 - tokens) / rate)
  else
    (⟨tokens - 1, now⟩, 0)

/-- Total sleep performed by `n` back-to-back `acquire()` calls of a single
caller starting from state `s` at time `t`: each call's sleep advances the
clock before the next call starts. -/
def tbRun (rate cap : ℚ) : Nat → TBState → ℚ → ℚ
  | 0, _, _ => 0
  | n + 1, s, t =>
    let r := tbAcquire rate cap s t
    r.2 + tbRun rate cap n r.1 (t + r.2)

/-- Total sleep for `n` back-to-back acquires against the configuration the
CourtListener client uses (`TokenBucket(rate=1.0, capacity=3)`), starting
from the freshly-constructed state (full bucket). -/
def tbTotalSleep (n : Nat) : ℚ :=
  tbRun 1 3 n ⟨3, 0⟩ 0

/-! ## CourtListener client error classification (`courtlistener.py`)

The network exchange of `CourtListenerClient.search` is abstracted by an
`HttpOutcome`: either a parsed result list, an HTTP status error, or a
transport error.  The translated `clSearch` applies the source's
classification (lines 109-135): a 401 raises a `ValueError` (modelled as
`Except.error`), any other HTTP/transport error is caught and returns the
empty list, and a successful response is truncated to `max_results`. -/

/-- Outcome of the HTTP exchange inside `CourtListenerClient.search`. -/
inductive HttpOutcome where
  | ok (hits : List CLHit)
  | httpStatusError (status : Nat)
  | networkError
deriving Repr, DecidableEq

/-- `CourtListenerClient.search` error classification: auth failure (401)
raises; transient failures yield zero results; success yields at most
`maxResults` hits. -/
def clSearch (outcome : HttpOutcome) (maxResults : Nat) :
    Except String (List CLHit) :=
  match outcome with
  | .ok hits => .ok (hits.take maxResults)
  | .httpStatusError status =>
      if status = 401 then
        .error "CourtListener API token is missing or invalid. Set COURTLISTENER_TOKEN in backend/.env"
      else
        .ok []
  | .networkError => .ok []

/-! ## Statute sub-agent execute phase (`statute_agent.py` lines 63-101)

External collaborators are oracles: `lk` is `lookup_section_cached`
(never raises; returns `none` on failure or not-found) and `srch` is
`keyword_search` (may raise, modelled as `Except.error`, which the agent
catches).  `StExec` carries `found_sections` and `request_count`. -/

/-- State of the statute agent's execute loop: the `found_sections`
insertion-ordered dict and `request_count`. -/
structure StExec where
  found : List (String × LegInfoSection)
  count : Nat
deriving Repr, DecidableEq

/-- Direct-lookup loop (`statute_agent.py` lines 68-79): for each planned
lookup, break if the budget is reached; skip entries with an empty code or
section; otherwise count one request, perform the lookup and store a hit
under `result.code:result.section`. -/
def stDirect (lk : String → String → Option LegInfoSection) :
    List (String × String) → StExec → StExec
  | [], st => st
  | (c, s) :: rest, st =>
    if 5 ≤ st.count then st
    else if c ≠ "" ∧ s ≠ "" then
      match lk c s with
      | some r =>
          stDirect lk rest
            ⟨assocSet st.found (r.code ++ ":" ++ r.sectionNum) r, st.count + 1⟩
      | none => stDirect lk rest ⟨st.found, st.count + 1⟩
    else stDirect lk rest st

/-- Inner loop over one query's search results (`statute_agent.py` lines
88-97): break on budget, skip already-seen keys without spending budget,
otherwise count one request and fetch the full section. -/
def stHits (lk : String → String → Option LegInfoSection) :
    List LegInfoSearchHit → StExec → StExec
  | [], st => st
  | h :: rest, st =>
    if 5 ≤ st.count then st
    else
      let key := h.code ++ ":" ++ h.sectionNum
      if (assocFind st.found key).isSome then stHits lk rest st
      else
        match lk h.code h.sectionNum with
        | some sec => stHits lk rest ⟨assocSet st.found key sec, st.count + 1⟩
        | none => stHits lk rest ⟨st.found, st.count + 1⟩

/-- Keyword-search loop (`statute_agent.py` lines 82-99): break on budget,
count one request for the search itself; a raising search is caught and
the loop continues with the next query. -/
def stQueries (lk : String → String → Option LegInfoSection)
    (srch : String → Except String (List LegInfoSearchHit)) :
    List String → StExec → StExec
  | [], st => st
  | q :: rest, st =>
    if 5 ≤ st.count then st
    else
      match srch q with
      | .error _ => stQueries lk srch rest ⟨st.found, st.count + 1⟩
      | .ok hits => stQueries lk srch rest (stHits lk hits ⟨st.found, st.count + 1⟩)

/-- The whole execute phase of `run_statute_agent`: direct lookups first,
then at most the first 5 keyword queries, starting from an empty dict and
a zero request count. -/
def runStatuteExecute (lk : String → String → Option LegInfoSection)
    (srch : String → Except String (List LegInfoSearchHit))
    (lookups : List (String × String)) (queries : List String) : StExec :=
  stQueries lk srch (queries.take 5) (stDirect lk lookups ⟨[], 0⟩)

/-! ## Case-law sub-agent execute phase (`caselaw_agent.py` lines 66-107) -/

/-- State of the case-law agent's search loop: the `all_hits`
insertion-ordered dict (keyed `case_name:date_filed`) and
`request_count`. -/
structure ClExec where
  hits : List (String × CLHit)
  count : Nat
deriving Repr, DecidableEq

/-- Dedup insertion of one search response into `all_hits`
(`caselaw_agent.py` lines 76-79): first-seen wins. -/
def insertHits (acc : List (String × CLHit)) : List CLHit → List (String × CLHit)
  | [] => acc
  | h :: rest =>
    let key := h.case_name ++ ":" ++ h.date_filed
    if (assocFind acc key).isSome then insertHits acc rest
    else insertHits (acc ++ [(key, h)]) rest

/-- Search loop (`caselaw_agent.py` lines 70-81): break on budget, count
one request per search; a raising search (including the auth `ValueError`)
is caught and the loop continues. -/
def clQueries (srch : String → Except String (List CLHit)) :
    List String → ClExec → ClExec
  | [], st => st
  | q :: rest, st =>
    if 10 ≤ st.count then st
    else
      match srch q with
      | .error _ => clQueries srch rest ⟨st.hits, st.count + 1⟩
      | .ok hs => clQueries srch rest ⟨insertHits st.hits hs, st.count + 1⟩

/-- Request-count effect of the detail-fetch loop (`caselaw_agent.py`
lines 90-105): for each of the top hits, one request is spent when the hit
has a non-zero opinion id and the budget is not exhausted; the fetched
opinion text (and any caught fetch failure) only feeds the evaluation
prompt and does not affect the count. -/
def clDetails : List CLHit → Nat → Nat
  | [], c => c
  | h :: rest, c =>
    if h.opinion_id ≠ 0 ∧ c < 10 then clDetails rest (c + 1)
    else clDetails rest c

/-- Request count spent by the whole execute phase of `run_caselaw_agent`:
at most the first 5 queries are searched, then detail fetches run over the
first 5 collected hits. -/
def runCaselawExecuteCount (srch : String → Except String (List CLHit))
    (queries : List String) : Nat :=
  let st := clQueries srch (queries.take 5) ⟨[], 0⟩
  clDetails ((st.hits.map (fun p => p.2)).take 5) st.count

/-! ## Evaluation output and the filter/sort/top-2 policy

One evaluation item from the model's JSON.  `is_relevant` defaults to
`False` when missing, so a plain `Bool` field is faithful; `confidence` is
`Option` because the two use sites have different defaults (`0` in the
filter, `0.5` in the stored result); `title` is `Option` because its
default is computed from the fetched section. -/

/-- One entry of `evaluation["evaluations"]` in `statute_agent.py`. -/
structure StatuteEval where
  is_relevant : Bool
  confidence : Option ℚ
  code : String
  sectionNum : String
  title : Option String
  relevance_summary : String
  case_snippet : String
deriving Repr, DecidableEq

/-- One entry of `evaluation["evaluations"]` in `caselaw_agent.py`.
`case_name` is `Option` because `ev.get("case_name")` has no default at
the URL-matching site. -/
structure CaseEval where
  is_relevant : Bool
  confidence : Option ℚ
  case_name : Option String
  citation : String
  court : String
  date_filed : String
  snippet : String
  relevance_summary : String
  related_statutes : List String
deriving Repr, DecidableEq

/-- Stable descending sort by a confidence projection, mirroring Python's
stable `list.sort(key=..., reverse=True)`. -/
def sortByConfDesc {α : Type} (conf : α → ℚ) (l : List α) : List α :=
  l.insertionSort (fun a b => conf b ≤ conf a)

/-- Conversion of one statute evaluation to a `StatuteResult`
(`statute_agent.py` lines 135-152): re-hydrate `title`, `full_text` and
`url` from `found_sections` when the evaluated `code:section` key was
fetched, empty strings otherwise. -/
def mkStatuteResult (issueId : String)
    (found : List (String × LegInfoSection)) (ev : StatuteEval) : StatuteResult :=
  let sec := assocFind found (ev.code ++ ":" ++ ev.sectionNum)
  { code := ev.code
    sectionNum := ev.sectionNum
    title := ev.title.getD (match sec with | some s => s.title | none => "")
    full_text := match sec with | some s => s.full_text | none => ""
    url := match sec with | some s => s.url | none => ""
    relevance_summary := ev.relevance_summary
    case_snippet := ev.case_snippet
    confidence := ev.confidence.getD (1 / 2)
    source_issue_id := issueId }

/-- The conversion loop of `run_statute_agent` (lines 129-152): skip items
not marked relevant, skip items whose confidence (defaulting to 0) is
below 0.3, convert the rest in order. -/
def statuteEvalLoop (issueId : String)
    (found : List (String × LegInfoSection)) : List StatuteEval → List StatuteResult
  | [] => []
  | ev :: rest =>
    if ev.is_relevant = false then statuteEvalLoop issueId found rest
    else if ev.confidence.getD 0 < 3 / 10 then statuteEvalLoop issueId found rest
    else mkStatuteResult issueId found ev :: statuteEvalLoop issueId found rest

/-- The list `run_statute_agent` returns from its evaluation output
(lines 129-156): conversion loop, stable sort by confidence descending,
top 2. -/
def statuteEvalResults (issueId : String)
    (found : List (String × LegInfoSection)) (evals : List StatuteEval) :
    List StatuteResult :=
  (sortByConfDesc (fun r => r.confidence) (statuteEvalLoop issueId found evals)).take 2

/-- Base URL constant `CL_BASE` from `caselaw_agent.py`. -/
def CL_BASE : String := "https://www.courtlistener.com"

/-- URL resolution for one case evaluation (`caselaw_agent.py` lines
135-139): first search hit whose `case_name` equals the evaluated name
provides the absolute URL (prefixed with `CL_BASE`) when non-empty. -/
def findCaseUrl (hitsList : List CLHit) (ev : CaseEval) : String :=
  match hitsList.find? (fun h =>
      match ev.case_name with
      | some n => h.case_name == n
      | none => false) with
  | some h => if h.absolute_url ≠ "" then CL_BASE ++ h.absolute_url else ""
  | none => ""

/-- Conversion of one case evaluation to a `CaseLawResult`
(`caselaw_agent.py` lines 141-154). -/
def mkCaseResult (issueId : String) (hitsList : List CLHit) (ev : CaseEval) :
    CaseLawResult :=
  { case_name := ev.case_name.getD ""
    citation := ev.citation
    court := ev.court
    date_filed := ev.date_filed
    url := findCaseUrl hitsList ev
    snippet := ev.snippet
    relevance_summary := ev.relevance_summary
    related_statutes := ev.related_statutes
    confidence := ev.confidence.getD (1 / 2)
    source_issue_id := issueId }

/-- The conversion loop of `run_caselaw_agent` (lines 128-154): same
relevance and 0.3-confidence filters as the statute kind. -/
def caseEvalLoop (issueId : String) (hitsList : List CLHit) :
    List CaseEval → List CaseLawResult
  | [] => []
  | ev :: rest =>
    if ev.is_relevant = false then caseEvalLoop issueId hitsList rest
    else if ev.confidence.getD 0 < 3 / 10 then caseEvalLoop issueId hitsList rest
    else mkCaseResult issueId hitsList ev :: caseEvalLoop issueId hitsList rest

/-- The list `run_caselaw_agent` returns from its evaluation output
(lines 128-158): conversion loop, stable sort by confidence descending,
top 2. -/
def caseEvalResults (issueId : String) (hitsList : List CLHit)
    (evals : List CaseEval) : List CaseLawResult :=
  (sortByConfDesc (fun r => r.confidence) (caseEvalLoop issueId hitsList evals)).take 2

/-! ## The case-law sub-agent as a whole (`run_caselaw_agent`)

For claim-level reasoning about failure propagation the agent is embedded
end-to-end after the planning call, with the search environment as an
`HttpOutcome` oracle and the two completion-service results (plan and
evaluation) as data.  The return type is `Except`, so a propagating
exception would appear as `Except.error`; the source's `try/except`
blocks around every search determine whether one ever does. -/

/-- `run_caselaw_agent` after a successful planning call: execute the
search loop (each search's raise caught in-loop), short-circuit to an
empty list when no hits were collected, otherwise run the detail loop and
return the filtered/sorted/capped evaluation output. -/
def runCaselawAgent (env : String → HttpOutcome) (issueId : String)
    (queries : List String) (evals : List CaseEval) :
    Except String (List CaseLawResult) :=
  let st := clQueries (fun q => clSearch (env q) 5) (queries.take 5) ⟨[], 0⟩
  if st.hits.isEmpty then .ok []
  else
    let hitsList := (st.hits.map (fun p => p.2)).take 5
    .ok (caseEvalResults issueId hitsList evals)

/-! ## Wave scheduler flattening (`master_agent.py` lines 106-114, 183-190)

`asyncio.gather(*tasks, return_exceptions=True)` awaits every task and
returns, in task launch order, either the task's result list or the
exception it raised; the flattening loop skips exceptions and extends the
accumulator with result lists. -/

/-- The flattening loop over gathered per-task outcomes: raised tasks are
logged and skipped, successful result lists are appended in order. -/
def flattenWave {α : Type} (outcomes : List (Except String (List α))) : List α :=
  outcomes.foldl
    (fun acc r => match r with | .error _ => acc | .ok l => acc ++ l) []

/-! ## Synthesizer (`master_agent.py` lines 116-159 and 192-235) -/

/-- One entry of `synth_data["ranked_statutes"]`: the model's echoed
statute fields.  `confidence` is `Option` because its default (0.5)
matters. -/
structure RankedStatute where
  code : String
  sectionNum : String
  title : String
  relevance_summary : String
  case_snippet : String
  confidence : Option ℚ
  source_issue_id : String
deriving Repr, DecidableEq

/-- One entry of `synth_data["ranked_cases"]`. -/
structure RankedCase where
  case_name : String
  citation : String
  court : String
  date_filed : String
  url : String
  snippet : String
  relevance_summary : String
  related_statutes : List String
  confidence : Option ℚ
  source_issue_id : String
deriving Repr, DecidableEq

/-- Re-hydration of one ranked statute (`master_agent.py` lines 130-148):
`full_text` and `url` are copied from the first original candidate with
the same code and section, empty strings when none matches; every other
field is taken from the model's echoed entry. -/
def rehydrateStatute (cands : List StatuteResult) (s : RankedStatute) :
    StatuteResult :=
  let original := cands.find? (fun c => c.code == s.code && c.sectionNum == s.sectionNum)
  { code := s.code
    sectionNum := s.sectionNum
    title := s.title
    full_text := match original with | some c => c.full_text | none => ""
    url := match original with | some c => c.url | none => ""
    relevance_summary := s.relevance_summary
    case_snippet := s.case_snippet
    confidence := s.confidence.getD (1 / 2)
    source_issue_id := s.source_issue_id }

/-- Wave 1 synthesis result (`master_agent.py` lines 117-151): when there
are no candidates the wave short-circuits to an empty list; otherwise the
final statutes are the first 4 entries of the model's ranked list,
re-hydrated against the candidates. -/
def synthesizeStatutes (cands : List StatuteResult)
    (ranked : List RankedStatute) : List StatuteResult :=
  if cands.isEmpty then [] else (ranked.take 4).map (rehydrateStatute cands)

/-- Conversion of one ranked case (`master_agent.py` lines 211-224). -/
def mkFinalCase (c : RankedCase) : CaseLawResult :=
  { case_name := c.case_name
    citation := c.citation
    court := c.court
    date_filed := c.date_filed
    url := c.url
    snippet := c.snippet
    relevance_summary := c.relevance_summary
    related_statutes := c.related_statutes
    confidence := c.confidence.getD (1 / 2)
    source_issue_id := c.source_issue_id }

/-- Wave 2 synthesis result (`master_agent.py` lines 193-227). -/
def synthesizeCases (cands : List CaseLawResult) (ranked : List RankedCase) :
    List CaseLawResult :=
  if cands.isEmpty then [] else (ranked.take 4).map mkFinalCase

/-- Issue-list construction from the fact-pattern call
(`master_agent.py` lines 77-80): at most the first 4 parsed issues. -/
def parseIssues (issueData : List LegalIssue) : List LegalIssue :=
  issueData.take 4

/-! ## Section lookup cache (`leginfo_scraper.py` lines 274-289)

`_section_cache` maps the string key `f"{code}:{section}"` to the stored
outcome of `lookup_section` — which is itself optional (`None` is cached
too).  The embedding threads the cache explicitly and reports how many
times `lookup_section` was invoked by the call (0 or 1). -/

/-- `lookup_section_cached`: on a key miss, invoke `lookup_section` once
and store its outcome (including `none`); on a hit, return the stored
value without invoking it. -/
def lookup_section_cached (lookup : String → String → Option LegInfoSection)
    (cache : List (String × Option LegInfoSection)) (code sec : String) :
    Option LegInfoSection × List (String × Option LegInfoSection) × Nat :=
  let key := code ++ ":" ++ sec
  match assocFind cache key with
  | some v => (v, cache, 0)
  | none =>
      let v := lookup code sec
      (v, cache ++ [(key, v)], 1)

/-- `clear_cache`: the cache becomes empty. -/
def clear_cache : List (String × Option LegInfoSection) := []

/-! ## Event bus (`models/events.py`, `core/sse_manager.py`, and the
emission sequence of `_execute_pipeline` in `master_agent.py`) -/

/-- `EventType` from `models/events.py`. -/
inductive EventType where
  | run_started
  | fact_pattern
  | wave1_started
  | statute_progress
  | statute_found
  | wave1_complete
  | wave2_started
  | caselaw_progress
  | caselaw_found
  | wave2_complete
  | run_complete
  | error
deriving Repr, DecidableEq

/-- The stage-marker events named by the ordering property. -/
def isStageMarker : EventType → Bool
  | .run_started => true
  | .wave1_complete => true
  | .wave2_complete => true
  | .run_complete => true
  | .error => true
  | _ => false

/-- The per-sub-agent progress events emitted inside a wave by
`_run_statute_with_progress` and `_run_caselaw_with_progress`. -/
def isWaveProgress : EventType → Bool
  | .statute_progress => true
  | .statute_found => true
  | .caselaw_progress => true
  | .caselaw_found => true
  | _ => false

/-- The emission order of `_execute_pipeline` on the success path,
parameterised by the (non-deterministic) interleavings `w1` and `w2` of
per-sub-agent progress events inside each wave: `run_started`,
`fact_pattern`, `wave1_started`, Wave 1 progress, `wave1_complete`,
`wave2_started`, Wave 2 progress, `wave2_complete`, `run_complete`. -/
def pipelineTrace (w1 w2 : List EventType) : List EventType :=
  [.run_started, .fact_pattern, .wave1_started] ++ w1 ++
    [.wave1_complete, .wave2_started] ++ w2 ++ [.wave2_complete, .run_complete]

/-- `SSEManager.emit` for one run: append the event to every queue of the
run's current subscribers. -/
def sseEmit (queues : List (List EventType)) (e : EventType) :
    List (List EventType) :=
  queues.map (fun q => q ++ [e])

/-- Emitting a sequence of events one by one through `SSEManager.emit`. -/
def sseEmitAll (queues : List (List EventType)) (es : List EventType) :
    List (List EventType) :=
  es.foldl sseEmit queues

/-! ## Budget invariants for the execute phases -/

lemma stDirect_count_le (lk : String → String → Option LegInfoSection)
    (l : List (String × String)) (st : StExec) (h : st.count ≤ 5) :
    (stDirect lk l st).count ≤ 5 := by
  induction l generalizing st with
  | nil => simpa [stDirect] using h
  | cons p rest ih =>
    obtain ⟨c, s⟩ := p
    simp only [stDirect]
    split
    · exact h
    next h5 =>
      split
      · split
        · exact ih _ (by simp only [StExec.mk.injEq]; omega)
        · exact ih _ (by simp only [StExec.mk.injEq]; omega)
      · exact ih _ h

lemma stHits_count_le (lk : String → String → Option LegInfoSection)
    (l : List LegInfoSearchHit) (st : StExec) (h : st.count ≤ 5) :
    (stHits lk l st).count ≤ 5 := by
  induction l generalizing st with
  | nil => simpa [stHits] using h
  | cons hd rest ih =>
    simp only [stHits]
    split
    · exact h
    next h5 =>
      split
      · exact ih _ h
      · split
        · exact ih _ (by simp only [StExec.mk.injEq]; omega)
        · exact ih _ (by simp only [StExec.mk.injEq]; omega)

lemma stQueries_count_le (lk : String → String → Option LegInfoSection)
    (srch : String → Except String (List LegInfoSearchHit))
    (l : List String) (st : StExec) (h : st.count ≤ 5) :
    (stQueries lk srch l st).count ≤ 5 := by
  induction l generalizing st with
  | nil => simpa [stQueries] using h
  | cons q rest ih =>
    simp only [stQueries]
    split
    · exact h
    next h5 =>
      split
      · exact ih _ (by simp only [StExec.mk.injEq]; omega)
      · exact ih _ (stHits_count_le _ _ _ (by simp only [StExec.mk.injEq]; omega))

lemma clQueries_count_le (srch : String → Except String (List CLHit))
    (l : List String) (st : ClExec) (h : st.count ≤ 10) :
    (clQueries srch l st).count ≤ 10 := by
  induction l generalizing st with
  | nil => simpa [clQueries] using h
  | cons q rest ih =>
    simp only [clQueries]
    split
    · exact h
    next h10 =>
      split
      · exact ih _ (by simp only [ClExec.mk.injEq]; omega)
      · exact ih _ (by simp only [ClExec.mk.injEq]; omega)

lemma clDetails_count_le (l : List CLHit) (c : Nat) (h : c ≤ 10) :
    clDetails l c ≤ 10 := by
  induction l generalizing c with
  | nil => simpa [clDetails] using h
  | cons hd rest ih =>
    simp only [clDetails]
    split
    next hc => exact ih _ (by omega)
    · exact ih _ h

/-- C1: for every Sub-Agent invocation and every plan — including
adversarial plans whose lookup and query lists exceed what the budget
allows — the total number of external-source calls (direct lookups,
keyword searches, and follow-on detail fetches; each counted exactly once
by `request_count` immediately before the call is made) never exceeds the
configured budget: 5 for the statute kind and 10 for the case-law kind. -/
theorem C1_subagent_budget :
    (∀ (lk : String → String → Option LegInfoSection)
       (srch : String → Except String (List LegInfoSearchHit))
       (lookups : List (String × String)) (queries : List String),
       (runStatuteExecute lk srch lookups queries).count ≤ 5) ∧
    (∀ (srch : String → Except String (List CLHit)) (queries : List String),
       runCaselawExecuteCount srch queries ≤ 10) := by
  constructor
  · intro lk srch lookups queries
    exact stQueries_count_le lk srch _ _
      (stDirect_count_le lk lookups ⟨[], 0⟩ (by simp))
  · intro srch queries
    exact clDetails_count_le _ _ (clQueries_count_le srch _ ⟨[], 0⟩ (by simp))

/-- C4: evaluation of the translated `TokenBucket.acquire` at the claimed
scenario — rate = 1 token/second, capacity = 3, ten back-to-back
`acquire()` calls by a single caller, elapsed time the sum of performed
sleeps.  The total sleep is exactly 4 seconds, not the claimed ≥ 7:
`acquire` sets `last_refill` to the pre-sleep instant and never advances
it past the sleep, so the sleep duration is counted again as refill on
the next call, and after the burst every other call passes without
sleeping (an effective sustained rate of 2 requests/second, contradicting
the module's stated ~1 req/sec). -/
theorem C4_rate_limiter_total_sleep :
    tbTotalSleep 10 = 4 ∧ tbTotalSleep 10 < 7 := by
  constructor <;> norm_num [tbTotalSleep, tbRun, tbAcquire, min_def]

lemma flattenWave_foldl {α : Type} (outcomes : List (Except String (List α)))
    (acc : List α) :
    outcomes.foldl (fun acc r => match r with | .error _ => acc | .ok l => acc ++ l) acc
      = acc ++ (outcomes.filterMap
          (fun r => match r with | .ok l => some l | .error _ => none)).flatten := by
  induction outcomes generalizing acc with
  | nil => simp
  | cons r rest ih =>
    cases r with
    | error e => simpa using ih acc
    | ok l => simp [ih, List.append_assoc]

/-- C5: the Wave Scheduler's flattening of the outcomes of all N gathered
sub-agent tasks (`asyncio.gather(..., return_exceptions=True)` yields one
outcome per task, in launch order) equals the concatenation, in launch
order, of the result lists of exactly the non-raising tasks; `flattenWave`
is a total function, so no exception escapes the scheduler. -/
theorem C5_wave_scheduler_isolation {α : Type}
    (outcomes : List (Except String (List α))) :
    flattenWave outcomes
      = (outcomes.filterMap
          (fun r => match r with | .ok l => some l | .error _ => none)).flatten := by
  simpa using flattenWave_foldl outcomes []

/-- C7: the fact pattern keeps at most 4 legal issues, and each wave's
final result list — the run's statutes after Wave 1 synthesis and its
case law after Wave 2 synthesis — has length at most 4, on both the
short-circuit (no candidates) and the synthesis branch. -/
theorem C7_issue_and_wave_caps :
    (∀ issueData : List LegalIssue, (parseIssues issueData).length ≤ 4) ∧
    (∀ (cands : List StatuteResult) (ranked : List RankedStatute),
       (synthesizeStatutes cands ranked).length ≤ 4) ∧
    (∀ (cands : List CaseLawResult) (ranked : List RankedCase),
       (synthesizeCases cands ranked).length ≤ 4) := by
  refine ⟨fun issueData => ?_, fun cands ranked => ?_, fun cands ranked => ?_⟩
  · simp [parseIssues]
  · unfold synthesizeStatutes
    split
    · simp
    · simp
  · unfold synthesizeCases
    split
    · simp
    · simp

/-- C2 counterexample: the Wave 1 synthesis code (`master_agent.py` lines
129-148) applies no deduplication by natural identity and no 0.3
confidence floor — it converts the model's ranked list as-is, truncated
to 4.  Feeding it one original candidate and a ranked list echoing the
same `PEN 240` identity twice, at confidences 0.2 and 0.1, yields two
output items with the same natural identity, both below 0.3. -/
theorem C2_counterexample :
    (synthesizeStatutes
      [⟨"PEN", "240", "T", "TXT", "U", "RS", "CS", 9 / 10, "i1"⟩]
      [⟨"PEN", "240", "T", "RS", "CS", some (1 / 5), "i1"⟩,
       ⟨"PEN", "240", "T2", "RS2", "CS2", some (1 / 10), "i1"⟩]).map
        (fun r => (r.code, r.sectionNum, r.confidence))
      = [("PEN", "240", 1 / 5), ("PEN", "240", 1 / 10)] ∧
    (1 / 5 : ℚ) < 3 / 10 ∧ (1 / 10 : ℚ) < 3 / 10 := by
  refine ⟨?_, by norm_num, by norm_num⟩
  norm_num [synthesizeStatutes, rehydrateStatute]

/-- C2 (amended): the synthesis code enforces only the cap of 4 items per
wave; deduplication by natural identity and the 0.3 confidence floor are
delegated to the completion-service response and are not re-checked — on
the non-empty branch the output confidences are exactly those echoed by
the model's ranked list (first 4 entries, missing confidence defaulting
to 0.5), passed through unfiltered. -/
theorem C2_synthesis_cap_and_passthrough :
    (∀ (cands : List StatuteResult) (ranked : List RankedStatute),
       (synthesizeStatutes cands ranked).length ≤ 4) ∧
    (∀ (cands : List StatuteResult) (ranked : List RankedStatute),
       cands ≠ [] →
       (synthesizeStatutes cands ranked).map (fun r => r.confidence)
         = (ranked.take 4).map (fun s => s.confidence.getD (1 / 2))) ∧
    (∀ (cands : List CaseLawResult) (ranked : List RankedCase),
       (synthesizeCases cands ranked).length ≤ 4) ∧
    (∀ (cands : List CaseLawResult) (ranked : List RankedCase),
       cands ≠ [] →
       (synthesizeCases cands ranked).map (fun r => r.confidence)
         = (ranked.take 4).map (fun c => c.confidence.getD (1 / 2))) := by
  refine ⟨fun cands ranked => ?_, fun cands ranked h => ?_,
    fun cands ranked => ?_, fun cands ranked h => ?_⟩
  · unfold synthesizeStatutes; split <;> simp
  · simp [synthesizeStatutes, h, rehydrateStatute, List.map_map, Function.comp_def]
  · unfold synthesizeCases; split <;> simp
  · simp [synthesizeCases, h, mkFinalCase, List.map_map, Function.comp_def]

/-- C2 witness: the pass-through conjuncts applied at concrete inputs. -/
theorem C2_synthesis_witness :
    (synthesizeStatutes
      [⟨"PEN", "240", "T", "TXT", "U", "RS", "CS", 9 / 10, "i1"⟩]
      [⟨"PEN", "240", "T", "RS", "CS", some (2 / 5), "i1"⟩]).map
        (fun r => r.confidence) = [(2 / 5 : ℚ)] ∧
    (synthesizeCases
      [⟨"N", "C", "Ct", "D", "U", "S", "RS", [], 9 / 10, "i1"⟩]
      [⟨"N", "C", "Ct", "D", "U", "S", "RS", [], none, "i1"⟩]).map
        (fun r => r.confidence) = [(1 / 2 : ℚ)] := by
  constructor
  · have h := C2_synthesis_cap_and_passthrough.2.1
      [⟨"PEN", "240", "T", "TXT", "U", "RS", "CS", 9 / 10, "i1"⟩]
      [⟨"PEN", "240", "T", "RS", "CS", some (2 / 5), "i1"⟩] (by simp)
    simpa using h
  · have h := C2_synthesis_cap_and_passthrough.2.2.2
      [⟨"N", "C", "Ct", "D", "U", "S", "RS", [], 9 / 10, "i1"⟩]
      [⟨"N", "C", "Ct", "D", "U", "S", "RS", [], none, "i1"⟩] (by simp)
    simpa using h

/-- C3 counterexample: with every search returning HTTP 401, the client
does raise its distinct auth error, but `run_caselaw_agent` catches every
exception inside its search loop (`caselaw_agent.py` lines 73-81), so the
failure never leaves the Sub-Agent: the agent returns an ordinary empty
result (`Except.ok []`), not a propagated error, contradicting the claim
that an authentication failure propagates out of the Sub-Agent and is
counted by the Wave Scheduler as that sub-agent's failure. -/
theorem C3_counterexample :
    clSearch (HttpOutcome.httpStatusError 401) 5
      = .error "CourtListener API token is missing or invalid. Set COURTLISTENER_TOKEN in backend/.env" ∧
    runCaselawAgent (fun _ => HttpOutcome.httpStatusError 401) "i1" ["q"] []
      = .ok [] := by
  exact ⟨rfl, rfl⟩

/-- C3 (amended): the bounded external client classifies failures
distinctly — HTTP 401 raises a fatal auth error, any other HTTP status or
transport failure is caught and yields zero results — but the case-law
Sub-Agent wraps every search call in a catch-all handler, so an auth
failure is absorbed inside the Sub-Agent exactly like a transient
failure: the agent never returns an error for any search environment (it
yields `.ok` with an — possibly empty — result list), the Wave Scheduler
never sees a failed task from this path, and a fortiori sibling
sub-agents and the run are unaffected. -/
theorem C3_auth_failure_absorbed :
    (∀ (hits : List CLHit) (maxResults : Nat),
       clSearch (.ok hits) maxResults = .ok (hits.take maxResults)) ∧
    (∀ (status maxResults : Nat), status ≠ 401 →
       clSearch (.httpStatusError status) maxResults = .ok []) ∧
    (∀ maxResults : Nat,
       ∃ msg, clSearch (.httpStatusError 401) maxResults = .error msg) ∧
    (∀ maxResults : Nat, clSearch .networkError maxResults = .ok []) ∧
    (∀ (env : String → HttpOutcome) (issueId : String)
       (queries : List String) (evals : List CaseEval),
       ∃ l, runCaselawAgent env issueId queries evals = .ok l) := by
  refine ⟨fun hits maxResults => rfl, fun status maxResults h => ?_,
    fun maxResults => ⟨_, rfl⟩, fun maxResults => rfl,
    fun env issueId queries evals => ?_⟩
  · simp [clSearch, h]
  · unfold runCaselawAgent
    dsimp only
    split
    · exact ⟨[], rfl⟩
    · exact ⟨_, rfl⟩

/-- C3 witness: a non-401 HTTP failure is absorbed as zero results, and
the agent run against an all-401 environment yields a plain result. -/
theorem C3_auth_failure_absorbed_witness :
    clSearch (.httpStatusError 500) 5 = .ok [] ∧
    ∃ l, runCaselawAgent (fun _ => HttpOutcome.httpStatusError 401) "i1" ["q"] [] = .ok l := by
  exact ⟨C3_auth_failure_absorbed.2.1 500 5 (by decide),
    C3_auth_failure_absorbed.2.2.2.2 _ "i1" ["q"] []⟩

/-! ## The filter/sort/top-2 selection policy (claim C6) -/

lemma statuteEvalLoop_eq (issueId : String)
    (found : List (String × LegInfoSection)) (evals : List StatuteEval) :
    statuteEvalLoop issueId found evals
      = (evals.filter
          (fun ev => ev.is_relevant && decide ((3 : ℚ) / 10 ≤ ev.confidence.getD 0))).map
          (mkStatuteResult issueId found) := by
  induction evals with
  | nil => rfl
  | cons ev rest ih =>
    cases hrel : ev.is_relevant with
    | false => simp [statuteEvalLoop, hrel, ih]
    | true =>
      by_cases hc : ev.confidence.getD 0 < 3 / 10
      · simp [statuteEvalLoop, hrel, hc, not_le.mpr hc, ih]
      · simp [statuteEvalLoop, hrel, hc, not_lt.mp hc, ih]

lemma caseEvalLoop_eq (issueId : String) (hitsList : List CLHit)
    (evals : List CaseEval) :
    caseEvalLoop issueId hitsList evals
      = (evals.filter
          (fun ev => ev.is_relevant && decide ((3 : ℚ) / 10 ≤ ev.confidence.getD 0))).map
          (mkCaseResult issueId hitsList) := by
  induction evals with
  | nil => rfl
  | cons ev rest ih =>
    cases hrel : ev.is_relevant with
    | false => simp [caseEvalLoop, hrel, ih]
    | true =>
      by_cases hc : ev.confidence.getD 0 < 3 / 10
      · simp [caseEvalLoop, hrel, hc, not_le.mpr hc, ih]
      · simp [caseEvalLoop, hrel, hc, not_lt.mp hc, ih]

lemma sortByConfDesc_pairwise {α : Type} (conf : α → ℚ) (l : List α) :
    (sortByConfDesc conf l).Pairwise (fun a b => conf b ≤ conf a) := by
  haveI : IsTotal α (fun a b => conf b ≤ conf a) :=
    ⟨fun a b => le_total (conf b) (conf a)⟩
  haveI : IsTrans α (fun a b => conf b ≤ conf a) :=
    ⟨fun a b c hab hbc => le_trans hbc hab⟩
  exact List.sorted_insertionSort _ l

lemma sortByConfDesc_perm {α : Type} (conf : α → ℚ) (l : List α) :
    (sortByConfDesc conf l).Perm l :=
  List.perm_insertionSort _ l

/-- C6: for each Sub-Agent kind, the list returned from an evaluation
output is obtained by dropping every item not marked relevant, dropping
every item whose confidence (missing defaults to 0) is below 0.3, sorting
the remainder stably by confidence descending, and keeping at most the
top 2; the returned list is sorted by confidence descending and has
length at most 2. -/
theorem C6_filter_sort_top2 :
    (∀ (issueId : String) (found : List (String × LegInfoSection))
       (evals : List StatuteEval),
       statuteEvalResults issueId found evals
         = (sortByConfDesc (fun r => r.confidence)
             ((evals.filter
               (fun ev => ev.is_relevant && decide ((3 : ℚ) / 10 ≤ ev.confidence.getD 0))).map
               (mkStatuteResult issueId found))).take 2
       ∧ (statuteEvalResults issueId found evals).length ≤ 2
       ∧ (statuteEvalResults issueId found evals).Pairwise
           (fun a b => b.confidence ≤ a.confidence)) ∧
    (∀ (issueId : String) (hitsList : List CLHit) (evals : List CaseEval),
       caseEvalResults issueId hitsList evals
         = (sortByConfDesc (fun r => r.confidence)
             ((evals.filter
               (fun ev => ev.is_relevant && decide ((3 : ℚ) / 10 ≤ ev.confidence.getD 0))).map
               (mkCaseResult issueId hitsList))).take 2
       ∧ (caseEvalResults issueId hitsList evals).length ≤ 2
       ∧ (caseEvalResults issueId hitsList evals).Pairwise
           (fun a b => b.confidence ≤ a.confidence)) := by
  constructor
  · intro issueId found evals
    refine ⟨by rw [statuteEvalResults, statuteEvalLoop_eq], ?_, ?_⟩
    · simp only [statuteEvalResults, List.length_take]
      omega
    · exact (sortByConfDesc_pairwise _ _).sublist (List.take_sublist _ _)
  · intro issueId hitsList evals
    refine ⟨by rw [caseEvalResults, caseEvalLoop_eq], ?_, ?_⟩
    · simp only [caseEvalResults, List.length_take]
      omega
    · exact (sortByConfDesc_pairwise _ _).sublist (List.take_sublist _ _)

/-! ## Event delivery and stage-marker ordering (claim C8) -/

lemma sseEmitAll_eq (es : List EventType) (queues : List (List EventType)) :
    sseEmitAll queues es = queues.map (fun q => q ++ es) := by
  induction es generalizing queues with
  | nil => simp [sseEmitAll]
  | cons e rest ih =>
    show sseEmitAll (sseEmit queues e) rest = _
    rw [ih]
    simp [sseEmit, List.map_map, Function.comp_def, List.append_assoc]

lemma waveProgress_not_marker (e : EventType) (he : isWaveProgress e = true) :
    isStageMarker e = false := by
  cases e <;> simp_all [isWaveProgress, isStageMarker]

/-- C8: with one queue per subscriber connected before the run starts,
every event of the pipeline's emission sequence is delivered to every
subscriber in emission order (each queue ends up extended by exactly the
emitted sequence), and for every interleaving of per-sub-agent progress
events inside the two waves, the stage markers of the emitted sequence
appear in the exact relative order `run_started`, `wave1_complete`,
`wave2_complete`, `run_complete`. -/
theorem C8_event_delivery_and_order (w1 w2 : List EventType)
    (queues : List (List EventType))
    (h1 : ∀ e ∈ w1, isWaveProgress e = true)
    (h2 : ∀ e ∈ w2, isWaveProgress e = true) :
    sseEmitAll queues (pipelineTrace w1 w2)
      = queues.map (fun q => q ++ pipelineTrace w1 w2) ∧
    (pipelineTrace w1 w2).filter isStageMarker
      = [.run_started, .wave1_complete, .wave2_complete, .run_complete] := by
  constructor
  · exact sseEmitAll_eq _ _
  · have hw1 : w1.filter isStageMarker = [] := by
      rw [List.filter_eq_nil_iff]
      intro a ha
      simp [waveProgress_not_marker a (h1 a ha)]
    have hw2 : w2.filter isStageMarker = [] := by
      rw [List.filter_eq_nil_iff]
      intro a ha
      simp [waveProgress_not_marker a (h2 a ha)]
    simp [pipelineTrace, List.filter_append, hw1, hw2, isStageMarker]

/-- C8 witness: a single subscriber with an empty queue, Wave 1
interleaving two statute progress events, Wave 2 one case-law progress
event. -/
theorem C8_event_delivery_witness :
    sseEmitAll [[]] (pipelineTrace [.statute_progress, .statute_found] [.caselaw_progress])
      = [pipelineTrace [.statute_progress, .statute_found] [.caselaw_progress]] ∧
    (pipelineTrace [.statute_progress, .statute_found] [.caselaw_progress]).filter isStageMarker
      = [.run_started, .wave1_complete, .wave2_complete, .run_complete] := by
  have h := C8_event_delivery_and_order
    [.statute_progress, .statute_found] [.caselaw_progress] [[]]
    (by decide) (by decide)
  exact ⟨by simpa using h.1, h.2⟩

/-! ## Unfetched evaluation identities (claim C9) -/

lemma mem_statuteEvalResults {issueId : String}
    {found : List (String × LegInfoSection)} {evals : List StatuteEval}
    {r : StatuteResult} (hr : r ∈ statuteEvalResults issueId found evals) :
    ∃ ev ∈ evals, r = mkStatuteResult issueId found ev := by
  have h1 : r ∈ sortByConfDesc (fun r => r.confidence)
      (statuteEvalLoop issueId found evals) := List.mem_of_mem_take hr
  have h2 : r ∈ statuteEvalLoop issueId found evals :=
    (sortByConfDesc_perm _ _).mem_iff.mp h1
  rw [statuteEvalLoop_eq] at h2
  obtain ⟨ev, hev, rfl⟩ := List.mem_map.mp h2
  exact ⟨ev, List.mem_of_mem_filter hev, rfl⟩

/-- C9: a statute evaluation naming a `code:section` identity that is not
among the fetched sections is not dropped by the conversion step: every
returned result whose identity misses `found_sections` carries empty
`full_text` and `url`, and a relevant evaluation with confidence ≥ 0.3
whose identity was never fetched (in an agent run that did fetch
something, so the evaluation step is reached) is returned as such a
candidate and flows on to the Synthesizer. -/
theorem C9_unfetched_statute_survives :
    (∀ (issueId : String) (found : List (String × LegInfoSection))
       (evals : List StatuteEval) (r : StatuteResult),
       r ∈ statuteEvalResults issueId found evals →
       assocFind found (r.code ++ ":" ++ r.sectionNum) = none →
       r.full_text = "" ∧ r.url = "") ∧
    (∀ (issueId : String) (found : List (String × LegInfoSection))
       (ev : StatuteEval),
       found ≠ [] → ev.is_relevant = true →
       (3 : ℚ) / 10 ≤ ev.confidence.getD 0 →
       assocFind found (ev.code ++ ":" ++ ev.sectionNum) = none →
       statuteEvalResults issueId found [ev]
         = [mkStatuteResult issueId found ev] ∧
       (mkStatuteResult issueId found ev).full_text = "" ∧
       (mkStatuteResult issueId found ev).url = "") := by
  constructor
  · intro issueId found evals r hr hnone
    obtain ⟨ev, _, rfl⟩ := mem_statuteEvalResults hr
    simp only [mkStatuteResult] at hnone ⊢
    simp [hnone]
  · intro issueId found ev _ hrel hconf hnone
    refine ⟨?_, ?_, ?_⟩
    · simp [statuteEvalResults, statuteEvalLoop, hrel, not_lt.mpr hconf,
        sortByConfDesc]
    · simp [mkStatuteResult, hnone]
    · simp [mkStatuteResult, hnone]

/-- C9 witness: one fetched section (`PEN 240`) and one relevant
evaluation naming the unfetched identity `CIV:1708` with confidence
0.5. -/
theorem C9_unfetched_statute_witness :
    statuteEvalResults "i1" [("PEN:240", ⟨"PEN", "240", "T", "TXT", "U"⟩)]
        [⟨true, some (1 / 2), "CIV", "1708", none, "RS", "CS"⟩]
      = [mkStatuteResult "i1" [("PEN:240", ⟨"PEN", "240", "T", "TXT", "U"⟩)]
          ⟨true, some (1 / 2), "CIV", "1708", none, "RS", "CS"⟩] ∧
    (mkStatuteResult "i1" [("PEN:240", ⟨"PEN", "240", "T", "TXT", "U"⟩)]
        ⟨true, some (1 / 2), "CIV", "1708", none, "RS", "CS"⟩).full_text = "" ∧
    (mkStatuteResult "i1" [("PEN:240", ⟨"PEN", "240", "T", "TXT", "U"⟩)]
        ⟨true, some (1 / 2), "CIV", "1708", none, "RS", "CS"⟩).url = "" :=
  C9_unfetched_statute_survives.2 "i1"
    [("PEN:240", ⟨"PEN", "240", "T", "TXT", "U"⟩)]
    ⟨true, some (1 / 2), "CIV", "1708", none, "RS", "CS"⟩
    (by simp) rfl (by norm_num [Option.getD]) rfl

/-! ## Section-lookup cache (claim C10) -/

/-- A section used by the C10 cache-key collision counterexample. -/
def collideSection : LegInfoSection := ⟨"A:B", "C", "T", "TXT", "U"⟩

/-- A deterministic `lookup_section` oracle that finds `collideSection`
for the pair `("A:B", "C")` and nothing else; in particular it reports
not-found for the distinct pair `("A", "B:C")`, which shares the cache
key `"A:B:C"`. -/
def collideLookup : String → String → Option LegInfoSection :=
  fun c s => if c = "A:B" ∧ s = "C" then some collideSection else none

/-- C10 counterexample: the cache key is the joined string
`f"{code}:{section}"`, so the distinct pairs `("A:B", "C")` and
`("A", "B:C")` collide.  After the first pair is looked up, the first
call for the second pair invokes `lookup_section` zero times, stores
nothing, and returns the other pair's stored value — not its own outcome,
which is `none` — refuting the claim as stated for every code+section
pair. -/
theorem C10_counterexample :
    lookup_section_cached collideLookup [] "A:B" "C"
      = (some collideSection, [("A:B:C", some collideSection)], 1) ∧
    lookup_section_cached collideLookup [("A:B:C", some collideSection)] "A" "B:C"
      = (some collideSection, [("A:B:C", some collideSection)], 0) ∧
    collideLookup "A" "B:C" = none := by
  refine ⟨rfl, rfl, ?_⟩
  simp [collideLookup]

/-- C10 (amended): the caching contract holds per cache key — the joined
string `code:section` — rather than per code+section pair: the first call
whose key misses the cache invokes `lookup_section` exactly once and
stores its outcome, including `none` on failure or not-found; every
subsequent call producing the same key returns the stored value with zero
invocations, until `clear_cache` empties the cache.  Distinct pairs whose
joined keys coincide share one entry. -/
theorem C10_cache_by_key :
    (∀ (lookup : String → String → Option LegInfoSection)
       (cache : List (String × Option LegInfoSection)) (code sec : String),
       assocFind cache (code ++ ":" ++ sec) = none →
       lookup_section_cached lookup cache code sec
         = (lookup code sec, cache ++ [(code ++ ":" ++ sec, lookup code sec)], 1)) ∧
    (∀ (lookup : String → String → Option LegInfoSection)
       (cache : List (String × Option LegInfoSection)) (code sec : String)
       (v : Option LegInfoSection),
       assocFind cache (code ++ ":" ++ sec) = some v →
       lookup_section_cached lookup cache code sec = (v, cache, 0)) ∧
    clear_cache = [] := by
  refine ⟨fun lookup cache code sec h => ?_,
    fun lookup cache code sec v h => ?_, rfl⟩
  · simp [lookup_section_cached, h]
  · simp [lookup_section_cached, h]

/-- C10 witness: a failed lookup (`none`) is cached on the first call for
`PEN 240` and served from the cache, with zero further invocations, on
the second. -/
theorem C10_cache_by_key_witness :
    lookup_section_cached (fun _ _ => none) [] "PEN" "240"
      = (none, [] ++ [("PEN" ++ ":" ++ "240", none)], 1) ∧
    lookup_section_cached (fun _ _ => none) [("PEN:240", none)] "PEN" "240"
      = (none, [("PEN:240", none)], 0) :=
  ⟨C10_cache_by_key.1 (fun _ _ => none) [] "PEN" "240" rfl,
   C10_cache_by_key.2.1 (fun _ _ => none) [("PEN:240", none)] "PEN" "240" none rfl⟩

end LawSummary
